import Mathlib

/-!
Verification development for the ApolloStats repository (Go).

Source of truth: `src/web.go` (route handlers, template helpers, `Serve`
lifecycle). The cache subsystem (`NewCache`, `updater`, `close` and the
cache fields read by the handlers) is declared and called from `web.go`
but its own source file is not part of the sources; those parts are
modelled from the specification (sections 3, 4.1-4.4, 5), and every such
definition carries a doc comment starting with `Modelled from the spec:`.
Everything else is translated directly from `web.go`.
-/

namespace ApolloStats

/-! ## Data model -/

/-- Modelled from the spec: the summary of a round, the element type of the
cache's `LatestRound` field (the Go `Round` model type is not among the
sources; only its `ID` field is observable through `web.go`). -/
structure Round where
  ID : Int
deriving DecidableEq, Repr

/-- Modelled from the spec: the aggregate game statistics held by a
Snapshot (`GameStats` in the Go code, whose definition is not among the
sources). A single aggregate count stands for the derived metrics. -/
structure GameStats where
  total : Nat
deriving DecidableEq, Repr

/-- Modelled from the spec: one immutable Snapshot generation (spec §3):
all derived fields, the generation stamp `ComputedAt` and the duration
`ComputeDuration` of the recomputation. `ComputedAt` is the generation
ordinal (spec glossary: "the ordinal/timestamp identifying which refresh
cycle produced a given Snapshot"); published generations count from 1. -/
structure Snapshot where
  LatestRound : Option Round
  GameStats : GameStats
  GameModes : List (String × Int)
  Countries : List (String × Int)
  ComputedAt : Nat
  ComputeDuration : Nat
deriving DecidableEq, Repr

/-- Modelled from the spec: the payload a successful refresh cycle obtains
from the Data Source (spec §4.1) — every Snapshot field except the
generation stamp, which the publish step assigns. -/
structure SnapData where
  latestRound : Option Round
  gameStats : GameStats
  gameModes : List (String × Int)
  countries : List (String × Int)
  duration : Nat
deriving DecidableEq, Repr

/-- Modelled from the spec: the Cache state (spec §3): the single current
Snapshot reference (`none` before the first successful refresh), whether
the loop has been stopped, how many refreshes are in flight, how many
failures were recorded, and how many times resources were released. -/
structure CacheState where
  current : Option Snapshot
  stopped : Bool
  inFlight : Nat
  failures : Nat
  released : Nat
deriving DecidableEq, Repr

/-- Modelled from the spec: the cache as created by `NewCache` before any
refresh has run — no current Snapshot, loop not stopped, nothing in
flight. -/
def initialCache : CacheState :=
  { current := none, stopped := false, inFlight := 0, failures := 0, released := 0 }

/-! ## Events and the refresh/lifecycle transition system -/

/-- Modelled from the spec: the atomic events of the cache lifecycle.
`tickStart` is the refresh timer firing (spec §4.2), `finish r` is an
in-flight refresh completing with result `r` (`some d` = the Data Source
answered with payload `d`; `none` = the Data Source failed), and `stop`
is the shutdown call (`cache.close()` in `web.go`). -/
inductive Event where
  | tickStart : Event
  | finish : Option SnapData → Event
  | stop : Event
deriving DecidableEq, Repr

/-- The generation currently visible to readers: `0` before the first
successful refresh, otherwise the `ComputedAt` stamp of the current
Snapshot. -/
def genOf (s : CacheState) : Nat :=
  match s.current with
  | none => 0
  | some sn => sn.ComputedAt

/-- Modelled from the spec: one atomic transition of the cache.
A tick is skipped when the loop is stopped or a refresh is already in
flight (spec §4.2: "that tick is skipped rather than queued or run in
parallel"). A successful finish atomically publishes a wholly new
Snapshot with the next generation stamp (spec §4.3, §5: atomic publish of
an immutable value). A failed finish keeps the existing Snapshot, records
the failure and leaves the loop running (spec §4.2). `stop` is
idempotent and releases resources only on its first call (spec §4.4). -/
def step (s : CacheState) (e : Event) : CacheState :=
  match e with
  | Event.tickStart =>
      if s.stopped = true ∨ 1 ≤ s.inFlight then s
      else { s with inFlight := s.inFlight + 1 }
  | Event.finish r =>
      if s.inFlight = 0 then s
      else
        match r with
        | some d =>
            { s with
              inFlight := s.inFlight - 1,
              current := some
                { LatestRound := d.latestRound
                  GameStats := d.gameStats
                  GameModes := d.gameModes
                  Countries := d.countries
                  ComputedAt := genOf s + 1
                  ComputeDuration := d.duration } }
        | none =>
            { s with inFlight := s.inFlight - 1, failures := s.failures + 1 }
  | Event.stop =>
      if s.stopped = true then s
      else { s with stopped := true, released := s.released + 1 }

/-- Run a sequence of cache events from a state. -/
def runC : CacheState → List Event → CacheState
  | s, [] => s
  | s, e :: tr => runC (step s e) tr

/-- The cache state visible after the first `k` events of a trace: the
state a reader observes when its read interleaves at position `k`. -/
def cacheAt (init : CacheState) (tr : List Event) (k : Nat) : CacheState :=
  runC init (tr.take k)

/-! ## Accessors (spec §4.3, §6) -/

/-- Modelled from the spec: `get_current_snapshot()` — atomically reads
the single current-Snapshot reference; `none` signals that no snapshot is
available yet. -/
def getCurrentSnapshot (s : CacheState) : Option Snapshot :=
  s.current

/-- Modelled from the spec: the `cache.LatestRound` accessor read by the
`index` handler — delegates to the single current Snapshot. -/
def getLatestRound (s : CacheState) : Option Round :=
  (getCurrentSnapshot s).bind (fun sn => sn.LatestRound)

/-- Modelled from the spec: the `cache.GameStats` accessor read by the
`index` handler. -/
def getGameStats (s : CacheState) : Option GameStats :=
  (getCurrentSnapshot s).map (fun sn => sn.GameStats)

/-- Modelled from the spec: the `cache.GameModes` accessor read by the
`game_modes` handler. -/
def getGameModes (s : CacheState) : Option (List (String × Int)) :=
  (getCurrentSnapshot s).map (fun sn => sn.GameModes)

/-- Modelled from the spec: the `cache.Countries` accessor read by the
`countries` handler. -/
def getCountries (s : CacheState) : Option (List (String × Int)) :=
  (getCurrentSnapshot s).map (fun sn => sn.Countries)

/-- Modelled from the spec: the `cache.LastUpdated` accessor read by the
`index` handler — the `ComputedAt` stamp of the current Snapshot. -/
def getLastUpdated (s : CacheState) : Option Nat :=
  (getCurrentSnapshot s).map (fun sn => sn.ComputedAt)

/-- Modelled from the spec: the `cache.UpdateTime` accessor read by the
`index` handler — the `ComputeDuration` of the current Snapshot. -/
def getUpdateTime (s : CacheState) : Option Nat :=
  (getCurrentSnapshot s).map (fun sn => sn.ComputeDuration)

/-! ## The index handler (`web.go` lines 118-126) -/

/-- The data the `index` handler places into its template context:
`Round`, `Stats`, `LastUpdated` and `UpdateTime`, each read from the
cache. -/
structure IndexPage where
  Round : Option ApolloStats.Round
  Stats : Option GameStats
  LastUpdated : Option Nat
  UpdateTime : Option Nat
deriving DecidableEq, Repr

/-- The page an atomic, single-generation read of the cache would build:
all four fields projected from one and the same Snapshot reference. -/
def pageOfSnapshot (o : Option Snapshot) : IndexPage :=
  { Round := o.bind (fun sn => sn.LatestRound)
    Stats := o.map (fun sn => sn.GameStats)
    LastUpdated := o.map (fun sn => sn.ComputedAt)
    UpdateTime := o.map (fun sn => sn.ComputeDuration) }

/-- The `index` handler of `web.go` performs four separate cache reads
(`i.cache.LatestRound`, `i.cache.GameStats`, `i.cache.LastUpdated`,
`i.cache.UpdateTime`). When it runs concurrently with the refresh loop,
its reads interleave with the events of a trace: `indexPageAt init tr i1
i2 i3 i4` is the page built when the four reads happen at trace positions
`i1 ≤ i2 ≤ i3 ≤ i4`. -/
def indexPageAt (init : CacheState) (tr : List Event) (i1 i2 i3 i4 : Nat) : IndexPage :=
  { Round := getLatestRound (cacheAt init tr i1)
    Stats := getGameStats (cacheAt init tr i2)
    LastUpdated := getLastUpdated (cacheAt init tr i3)
    UpdateTime := getUpdateTime (cacheAt init tr i4) }

/-! ## Reader handlers as cache-reading operations (`web.go`) -/

/-- The `index` handler (`web.go` lines 118-126) as a cache operation: it
builds its page from four cache reads, leaves the cache state as it found
it and triggers no cache events (the Go code contains no write to
`i.cache` and no call into the refresh machinery). -/
def index_h (s : CacheState) : IndexPage × CacheState × List Event :=
  ({ Round := getLatestRound s
     Stats := getGameStats s
     LastUpdated := getLastUpdated s
     UpdateTime := getUpdateTime s }, s, [])

/-- The `game_modes` handler (`web.go` lines 200-205): reads
`i.cache.GameModes` only. -/
def game_modes_h (s : CacheState) : Option (List (String × Int)) × CacheState × List Event :=
  (getGameModes s, s, [])

/-- The `countries` handler (`web.go` lines 207-212): reads
`i.cache.Countries` only. -/
def countries_h (s : CacheState) : Option (List (String × Int)) × CacheState × List Event :=
  (getCountries s, s, [])

/-! ## Lifecycle: `Serve` (`web.go` lines 110-116) and the updater -/

/-- The externally visible actions of `Instance.Serve`: spawning the
cache updater goroutine, running the HTTP listener, closing the cache. -/
inductive ServeAction where
  | startUpdater : ServeAction
  | listen : String → ServeAction
  | closeCache : ServeAction
deriving DecidableEq, Repr

/-- `Instance.Serve` from `web.go`: it defers `i.cache.close()`, spawns
`go i.cache.updater()` and only then calls `i.router.Run(addr)`; the
deferred close runs after the listener returns. -/
def serveActions (addr : String) : List ServeAction :=
  [ServeAction.startUpdater, ServeAction.listen addr, ServeAction.closeCache]

/-- Tests whether a serve action is the spawning of the updater. -/
def isStartUpdater : ServeAction → Bool
  | ServeAction.startUpdater => true
  | _ => false

/-- Tests whether a serve action is the HTTP listener starting. -/
def isListen : ServeAction → Bool
  | ServeAction.listen _ => true
  | _ => false

/-- Modelled from the spec: the event trace the updater goroutine
produces, given the sequence of Data Source results it will encounter
(`cache.updater` is called from `web.go` but its source file is not among
the sources). Per spec §4.2 the first tick fires promptly: the very first
event is a `tickStart`, with no leading wait, and each tick's refresh
then runs to its finish before the next tick. -/
def updaterEvents (results : List (Option SnapData)) : List Event :=
  results.flatMap (fun r => [Event.tickStart, Event.finish r])

/-! ## Detail handlers and integer parsing (`web.go` lines 160-198) -/

/-- Go's `strconv.ParseInt(s, 10, 0)` as used by `round_detail` and
`character_detail`: an optional leading sign followed by at least one
base-10 digit, with the value required to fit a 64-bit signed integer;
`none` is Go's non-nil error. -/
def goParseInt (s : String) : Option Int :=
  match s.data with
  | [] => none
  | c :: cs =>
    let signDigits : Bool × List Char :=
      if c = '-' then (true, cs)
      else if c = '+' then (false, cs)
      else (false, c :: cs)
    match signDigits.2 with
    | [] => none
    | ds =>
      let val : Option Nat :=
        ds.foldl
          (fun acc d =>
            acc.bind (fun n =>
              if '0' ≤ d ∧ d ≤ '9' then some (n * 10 + (d.toNat - Char.toNat '0'))
              else none))
          (some 0)
      match val with
      | none => none
      | some n =>
        let v : Int := if signDigits.1 then -(n : Int) else (n : Int)
        if -(2 ^ 63) ≤ v ∧ v ≤ 2 ^ 63 - 1 then some v else none

/-- Modelled from the spec: a character as returned by `DB.GetCharacter`;
only the display name produced by `NiceName()` is observable in
`web.go`. -/
structure GoCharacter where
  niceName : String
deriving DecidableEq, Repr

/-- The per-request database surface the two detail handlers call
(`GetRound`, `GetAntags`, `GetAILaws`, `GetDeaths`, `GetCharacter`); the
result collections are abstract since only the ids passed in are decided
by `web.go`. -/
structure DBModel (A L D : Type) where
  GetRound : Int → Round
  GetAntags : Int → A
  GetAILaws : Int → L
  GetDeaths : Int → D
  GetCharacter : Int → GoCharacter

/-- The template context the `round_detail` handler renders, together
with the HTTP status it responds with. -/
structure RoundPage (A L D : Type) where
  status : Nat
  pagetitle : String
  Round : ApolloStats.Round
  Antags : A
  AILaws : L
  Deaths : D

/-- The `round_detail` handler (`web.go` lines 160-174): parses the
`:round_id` path parameter in base 10, substitutes `-1` on a parse
error, and performs the four DB lookups with that id, always answering
with HTTP 200. -/
def round_detail (db : DBModel A L D) (param : String) : RoundPage A L D :=
  let id : Int :=
    match goParseInt param with
    | some v => v
    | none => -1
  let round := db.GetRound id
  { status := 200
    pagetitle := "Round #" ++ toString round.ID
    Round := round
    Antags := db.GetAntags id
    AILaws := db.GetAILaws id
    Deaths := db.GetDeaths id }

/-- The template context the `character_detail` handler renders. -/
structure CharPage where
  status : Nat
  pagetitle : String
  Char : GoCharacter
deriving DecidableEq, Repr

/-- The `character_detail` handler (`web.go` lines 187-198): parses the
`:char_id` path parameter in base 10, substitutes `-1` on a parse error,
and looks the character up with that id, always answering with HTTP
200. -/
def character_detail (db : DBModel A L D) (param : String) : CharPage :=
  let id : Int :=
    match goParseInt param with
    | some v => v
    | none => -1
  let char := db.GetCharacter id
  { status := 200, pagetitle := char.niceName, Char := char }

/-! ## Template helper `default_job` (`web.go` lines 56-61) -/

/-- Go's `unicode.IsSpace`: the Unicode white-space code points Go
treats as space in `strings.TrimSpace`. -/
def goIsSpace (c : Char) : Bool :=
  (9 ≤ c.toNat ∧ c.toNat ≤ 13) ∨ c.toNat = 32 ∨ c.toNat = 133 ∨ c.toNat = 160 ∨
    c.toNat = 5760 ∨ (8192 ≤ c.toNat ∧ c.toNat ≤ 8202) ∨ c.toNat = 8232 ∨
    c.toNat = 8233 ∨ c.toNat = 8239 ∨ c.toNat = 8287 ∨ c.toNat = 12288

/-- Go's `strings.TrimSpace`: removes leading and trailing white space
(per `goIsSpace`) from the string. -/
def goTrimSpace (s : String) : String :=
  String.mk (((s.data.dropWhile goIsSpace).reverse.dropWhile goIsSpace).reverse)

/-- The `default_job` template helper from `web.go`: if the trimmed input
has fewer than one character it yields the string `Unknown`, otherwise
the input itself. -/
def default_job (s : String) : String :=
  if (goTrimSpace s).length < 1 then "Unknown" else s

/-- Tests whether a cache event is a successful refresh completion — the
only kind of event that can publish a Snapshot. -/
def isSuccessEvent : Event → Bool
  | Event.finish (some _) => true
  | _ => false

/-! ## Concrete example states and traces used by witnesses -/

/-- A Snapshot of generation 1 with a round recorded. -/
def snapOne : Snapshot :=
  { LatestRound := some { ID := 1 }, GameStats := { total := 10 },
    GameModes := [], Countries := [], ComputedAt := 1, ComputeDuration := 5 }

/-- A cache already holding `snapOne`, idle. -/
def exInit : CacheState :=
  { current := some snapOne, stopped := false, inFlight := 0, failures := 0, released := 0 }

/-- Data Source payload for a second, different generation. -/
def dataTwo : SnapData :=
  { latestRound := some { ID := 2 }, gameStats := { total := 20 },
    gameModes := [], countries := [], duration := 7 }

/-- A trace in which a refresh starts and successfully publishes a second
generation. -/
def exTrace : List Event :=
  [Event.tickStart, Event.finish (some dataTwo)]

/-- A cache holding `snapOne` with one refresh in flight. -/
def exRefreshing : CacheState :=
  { current := some snapOne, stopped := false, inFlight := 1, failures := 0, released := 0 }

/-- A trace in which the only refresh attempt fails and the cache is then
stopped: it contains no successful refresh completion. -/
def exFailTrace : List Event :=
  [Event.tickStart, Event.finish none, Event.stop]

/-- A concrete database instantiation for exercising the detail
handlers. -/
def exDB : DBModel Nat Nat Nat :=
  { GetRound := fun i => { ID := i }
    GetAntags := fun i => i.natAbs
    GetAILaws := fun i => i.natAbs + 1
    GetDeaths := fun i => i.natAbs + 2
    GetCharacter := fun i => { niceName := toString i } }

/-! ## Shared helper lemmas -/

/-- Running a concatenated trace is running the pieces in order. -/
theorem runC_append (a b : List Event) (s : CacheState) :
    runC s (a ++ b) = runC (runC s a) b := by
  induction a generalizing s with
  | nil => rfl
  | cons e a ih => simpa [runC] using ih (step s e)

/-- A single step never decreases the visible generation. -/
theorem genOf_le_step (s : CacheState) (e : Event) : genOf s ≤ genOf (step s e) := by
  cases e with
  | tickStart =>
    simp only [step]
    split
    · exact Nat.le_refl _
    · exact Nat.le_refl _
  | finish r =>
    simp only [step]
    split
    · exact Nat.le_refl _
    · cases r with
      | some d => exact Nat.le_succ _
      | none => exact Nat.le_refl _
  | stop =>
    simp only [step]
    split
    · exact Nat.le_refl _
    · exact Nat.le_refl _

/-- Running any trace never decreases the visible generation. -/
theorem genOf_le_runC (s : CacheState) (tr : List Event) : genOf s ≤ genOf (runC s tr) := by
  induction tr generalizing s with
  | nil => exact Nat.le_refl _
  | cons e tr ih => exact Nat.le_trans (genOf_le_step s e) (ih (step s e))

/-- A step keeps at most one refresh in flight. -/
theorem step_inFlight_le (s : CacheState) (e : Event) (h : s.inFlight ≤ 1) :
    (step s e).inFlight ≤ 1 := by
  cases e with
  | tickStart =>
    simp only [step]
    split
    · exact h
    · rename_i hcond
      push_neg at hcond
      have h0 : s.inFlight = 0 := Nat.lt_one_iff.mp hcond.2
      simp [h0]
  | finish r =>
    simp only [step]
    split
    · exact h
    · cases r with
      | some d => simp only; omega
      | none => simp only; omega
  | stop =>
    simp only [step]
    split
    · exact h
    · exact h

/-- A step preserves the release-count bookkeeping: resources have been
released exactly once iff the cache has been stopped. -/
theorem step_release_inv (s : CacheState) (e : Event)
    (h : s.released = if s.stopped = true then 1 else 0) :
    (step s e).released = if (step s e).stopped = true then 1 else 0 := by
  cases e with
  | tickStart =>
    simp only [step]
    split
    · exact h
    · exact h
  | finish r =>
    simp only [step]
    split
    · exact h
    · cases r with
      | some d => exact h
      | none => exact h
  | stop =>
    simp only [step]
    split
    · rename_i hst
      rw [hst] at h
      simpa using h
    · rename_i hns
      have hs : s.stopped = false := by
        cases hb : s.stopped
        · rfl
        · exact absurd hb hns
      rw [hs] at h
      simpa using h

/-- A step with a non-successful event cannot publish a first Snapshot. -/
theorem step_none_of_not_success (s : CacheState) (e : Event)
    (hc : s.current = none) (he : isSuccessEvent e = false) :
    (step s e).current = none := by
  cases e with
  | tickStart =>
    simp only [step]
    split
    · exact hc
    · exact hc
  | finish r =>
    cases r with
    | some d => simp [isSuccessEvent] at he
    | none =>
      simp only [step]
      split
      · exact hc
      · exact hc
  | stop =>
    simp only [step]
    split
    · exact hc
    · exact hc

/-- An empty string is exactly a string of length zero. -/
theorem string_length_eq_zero (s : String) : s.length = 0 ↔ s = "" := by
  constructor
  · intro h
    cases s with
    | mk data =>
      cases data with
      | nil => rfl
      | cons c cs => simp [String.length] at h
  · intro h
    subst h
    rfl

/-! ## Claim theorems -/

/-- Claim C1, counterexample: the claim as stated is false for the
`index` handler. Starting from a cache holding generation 1, with a
refresh publishing generation 2 between the handler's read of
`LatestRound` (trace position 0) and its reads of `GameStats`,
`LastUpdated` and `UpdateTime` (position 2), the handler's page holds
the round of generation 1 next to the `ComputedAt` of generation 2,
and the page equals no single-generation page of the read window. -/
theorem index_page_mixes_generations :
    (indexPageAt exInit exTrace 0 2 2 2).Round = some { ID := 1 } ∧
    (indexPageAt exInit exTrace 0 2 2 2).LastUpdated = some 2 ∧
    snapOne.ComputedAt = 1 ∧
    indexPageAt exInit exTrace 0 2 2 2 ≠ indexPageAt exInit exTrace 0 0 0 0 ∧
    indexPageAt exInit exTrace 0 2 2 2 ≠ indexPageAt exInit exTrace 1 1 1 1 ∧
    indexPageAt exInit exTrace 0 2 2 2 ≠ indexPageAt exInit exTrace 2 2 2 2 := by
  decide

/-- Claim C1, amended: every single accessor read returns data of exactly
one Snapshot generation — a read of the cache at one trace position is a
pure projection of the single current Snapshot reference, even while a
refresh is in flight. The `index` handler, however, performs four
separate reads, and a refresh publishing between them can make its page
span two generations (see the counterexample). -/
theorem accessor_read_single_generation (init : CacheState) (tr : List Event) (k : Nat) :
    indexPageAt init tr k k k k = pageOfSnapshot (getCurrentSnapshot (cacheAt init tr k)) :=
  rfl

/-- Claim C2: if the refresh in flight fails while the cache holds the
Snapshot of the previous successful cycle, the accessor still returns
that Snapshot unchanged, the failure is recorded, the loop is not
stopped, and the next tick starts a refresh again. -/
theorem failed_refresh_keeps_previous_snapshot (s : CacheState) (snap : Snapshot)
    (hcur : s.current = some snap) (hin : s.inFlight = 1) (hst : s.stopped = false) :
    getCurrentSnapshot (step s (Event.finish none)) = some snap ∧
    (step s (Event.finish none)).failures = s.failures + 1 ∧
    (step s (Event.finish none)).stopped = false ∧
    (step (step s (Event.finish none)) Event.tickStart).inFlight = 1 := by
  have h1 : step s (Event.finish none)
      = { s with inFlight := 0, failures := s.failures + 1 } := by
    simp [step, hin]
  refine ⟨?_, ?_, ?_, ?_⟩
  · rw [h1]
    simpa [getCurrentSnapshot] using hcur
  · rw [h1]
  · rw [h1]
    exact hst
  · rw [h1]
    simp [step, hst]

/-- Claim C2, witness. -/
theorem failed_refresh_keeps_previous_snapshot_witness :
    getCurrentSnapshot (step exRefreshing (Event.finish none)) = some snapOne ∧
    (step exRefreshing (Event.finish none)).failures = exRefreshing.failures + 1 ∧
    (step exRefreshing (Event.finish none)).stopped = false ∧
    (step (step exRefreshing (Event.finish none)) Event.tickStart).inFlight = 1 :=
  failed_refresh_keeps_previous_snapshot exRefreshing snapOne rfl rfl rfl

/-- Claim C3: the generation a reader observes is monotonically
non-decreasing along any trace — a read at a later position never sees
an earlier generation than a read at an earlier position. -/
theorem reader_generations_monotone (init : CacheState) (tr : List Event) (i j : Nat)
    (h : i ≤ j) :
    genOf (cacheAt init tr i) ≤ genOf (cacheAt init tr j) := by
  have h1 : (tr.take j).take i = tr.take i := by
    rw [List.take_take, Nat.min_eq_left h]
  have h2 : runC init (tr.take j)
      = runC (runC init (tr.take i)) ((tr.take j).drop i) := by
    conv_lhs => rw [← List.take_append_drop i (tr.take j)]
    rw [runC_append, h1]
  unfold cacheAt
  rw [h2]
  exact genOf_le_runC _ _

/-- Claim C3, witness. -/
theorem reader_generations_monotone_witness :
    genOf (cacheAt exInit exTrace 0) ≤ genOf (cacheAt exInit exTrace 2) :=
  reader_generations_monotone exInit exTrace 0 2 (by decide)

/-- Claim C4: before the first successful refresh — along any trace
containing no successful refresh completion — the accessors signal the
absence of a snapshot with `none`, distinct from any (empty-but-valid)
Snapshot value, rather than returning a zero Snapshot as if valid. -/
theorem no_snapshot_before_first_success (tr : List Event)
    (h : tr.all (fun e => !isSuccessEvent e) = true) :
    getCurrentSnapshot (runC initialCache tr) = none ∧
    getLatestRound (runC initialCache tr) = none ∧
    getGameStats (runC initialCache tr) = none := by
  have key : ∀ (tr : List Event) (s : CacheState), s.current = none →
      tr.all (fun e => !isSuccessEvent e) = true → (runC s tr).current = none := by
    intro tr
    induction tr with
    | nil =>
      intro s hs _
      exact hs
    | cons e tr ih =>
      intro s hs hall
      simp only [List.all_cons, Bool.and_eq_true] at hall
      have he : isSuccessEvent e = false := by
        simpa using hall.1
      exact ih (step s e) (step_none_of_not_success s e hs he) hall.2
  have hc := key tr initialCache rfl h
  refine ⟨?_, ?_, ?_⟩ <;>
    simp [getCurrentSnapshot, getLatestRound, getGameStats, hc]

/-- Claim C4, witness. -/
theorem no_snapshot_before_first_success_witness :
    getCurrentSnapshot (runC initialCache exFailTrace) = none ∧
    getLatestRound (runC initialCache exFailTrace) = none ∧
    getGameStats (runC initialCache exFailTrace) = none :=
  no_snapshot_before_first_success exFailTrace (by decide)

/-- Claim C5: at most one refresh is ever in flight on any trace from
the initial cache, and a tick that fires while a refresh is running
leaves the state exactly unchanged — the tick is skipped, neither queued
nor run in parallel. -/
theorem single_refresh_at_a_time :
    (∀ tr : List Event, (runC initialCache tr).inFlight ≤ 1) ∧
    (∀ s : CacheState, 1 ≤ s.inFlight → step s Event.tickStart = s) := by
  constructor
  · have key : ∀ (tr : List Event) (s : CacheState),
        s.inFlight ≤ 1 → (runC s tr).inFlight ≤ 1 := by
      intro tr
      induction tr with
      | nil =>
        intro s hs
        exact hs
      | cons e tr ih =>
        intro s hs
        exact ih (step s e) (step_inFlight_le s e hs)
    intro tr
    exact key tr initialCache (by decide)
  · intro s hs
    simp only [step]
    rw [if_pos (Or.inr hs)]

/-- Claim C5, witness. -/
theorem single_refresh_at_a_time_witness :
    (runC initialCache exTrace).inFlight ≤ 1 ∧
    step exRefreshing Event.tickStart = exRefreshing :=
  ⟨single_refresh_at_a_time.1 exTrace,
   single_refresh_at_a_time.2 exRefreshing (by decide)⟩

/-- Claim C6: the stop operation is idempotent — a second stop is a
no-op, starting no second shutdown — and on any trace from the initial
cache the resources have been released exactly once when the cache is
stopped and not at all otherwise. -/
theorem stop_idempotent_releases_once :
    (∀ s : CacheState, step (step s Event.stop) Event.stop = step s Event.stop) ∧
    (∀ tr : List Event,
      (runC initialCache tr).released
        = if (runC initialCache tr).stopped = true then 1 else 0) := by
  constructor
  · intro s
    by_cases hb : s.stopped = true
    · have h1 : step s Event.stop = s := by
        simp only [step]
        rw [if_pos hb]
      rw [h1]
      exact h1
    · have h1 : step s Event.stop
          = { s with stopped := true, released := s.released + 1 } := by
        simp only [step]
        rw [if_neg hb]
      rw [h1]
      simp only [step]
      simp
  · have key : ∀ (tr : List Event) (s : CacheState),
        s.released = (if s.stopped = true then 1 else 0) →
        (runC s tr).released = if (runC s tr).stopped = true then 1 else 0 := by
      intro tr
      induction tr with
      | nil =>
        intro s hs
        exact hs
      | cons e tr ih =>
        intro s hs
        exact ih (step s e) (step_release_inv s e hs)
    intro tr
    exact key tr initialCache (by decide)

/-- Claim C7: the Reader handlers (`index`, `game_modes`, `countries`)
return the cache state exactly as they found it and trigger no cache
events, and the only event whose step can change the current-Snapshot
reference is a successful refresh completion — the background loop's
publish. -/
theorem readers_only_refresh_writes :
    (∀ s : CacheState,
        (index_h s).2 = (s, ([] : List Event)) ∧
        (game_modes_h s).2 = (s, ([] : List Event)) ∧
        (countries_h s).2 = (s, ([] : List Event))) ∧
    (∀ (s : CacheState) (e : Event),
        (step s e).current ≠ s.current → ∃ d, e = Event.finish (some d)) := by
  constructor
  · intro s
    exact ⟨rfl, rfl, rfl⟩
  · intro s e hne
    cases e with
    | tickStart =>
      exfalso
      apply hne
      simp only [step]
      split
      · rfl
      · rfl
    | finish r =>
      cases r with
      | some d => exact ⟨d, rfl⟩
      | none =>
        exfalso
        apply hne
        simp only [step]
        split
        · rfl
        · rfl
    | stop =>
      exfalso
      apply hne
      simp only [step]
      split
      · rfl
      · rfl

/-- Claim C7, witness. -/
theorem readers_only_refresh_writes_witness :
    ((index_h exRefreshing).2 = (exRefreshing, ([] : List Event))) ∧
    (∃ d, Event.finish (some dataTwo) = Event.finish (some d)) :=
  ⟨(readers_only_refresh_writes.1 exRefreshing).1,
   readers_only_refresh_writes.2 exRefreshing (Event.finish (some dataTwo)) (by decide)⟩

/-- Claim C8: `Serve` spawns the updater exactly once, strictly before
it starts the HTTP listener, and the updater's very first event is a
refresh tick — the first Snapshot computation fires promptly instead of
waiting a full interval. -/
theorem updater_started_once_before_listening (addr : String)
    (results : List (Option SnapData)) (h : results ≠ []) :
    (serveActions addr).countP isStartUpdater = 1 ∧
    (serveActions addr).findIdx isStartUpdater < (serveActions addr).findIdx isListen ∧
    (updaterEvents results).head? = some Event.tickStart := by
  refine ⟨?_, ?_, ?_⟩
  · rfl
  · have h1 : (serveActions addr).findIdx isStartUpdater = 0 := rfl
    have h2 : (serveActions addr).findIdx isListen = 1 := rfl
    rw [h1, h2]
    exact Nat.zero_lt_one
  · cases results with
    | nil => exact absurd rfl h
    | cons r rest => rfl

/-- Claim C8, witness. -/
theorem updater_started_once_before_listening_witness :
    (serveActions ("localhost:8080")).countP isStartUpdater = 1 ∧
    (serveActions ("localhost:8080")).findIdx isStartUpdater
      < (serveActions ("localhost:8080")).findIdx isListen ∧
    (updaterEvents [some dataTwo]).head? = some Event.tickStart :=
  updater_started_once_before_listening ("localhost:8080") [some dataTwo] (by decide)

/-- Claim C9: when the id path parameter of `round_detail` or
`character_detail` does not parse as a base-10 integer, the handler does
not fail: it behaves exactly as if the parameter had been `-1`, querying
the database with id `-1` and answering HTTP 200. -/
theorem bad_id_defaults_to_minus_one {A L D : Type} (db : DBModel A L D) (s : String)
    (h : goParseInt s = none) :
    round_detail db s = round_detail db ("-1") ∧
    character_detail db s = character_detail db ("-1") ∧
    (round_detail db s).status = 200 ∧
    (character_detail db s).status = 200 := by
  have hm1 : goParseInt ("-1") = some (-1) := by decide
  refine ⟨?_, ?_, rfl, rfl⟩
  · simp [round_detail, h, hm1]
  · simp [character_detail, h, hm1]

/-- Claim C9, witness. -/
theorem bad_id_defaults_to_minus_one_witness :
    round_detail exDB ("abc") = round_detail exDB ("-1") ∧
    character_detail exDB ("abc") = character_detail exDB ("-1") ∧
    (round_detail exDB ("abc")).status = 200 ∧
    (character_detail exDB ("abc")).status = 200 :=
  bad_id_defaults_to_minus_one exDB ("abc") (by decide)

/-- Claim C10: `default_job` yields the string `Unknown` exactly when
the whitespace-trimmed input is empty, and yields the input unchanged
otherwise. -/
theorem default_job_unknown_exactly_when_blank (s : String) :
    default_job s = if goTrimSpace s = "" then "Unknown" else s := by
  unfold default_job
  by_cases h : goTrimSpace s = ""
  · have hl : (goTrimSpace s).length < 1 := by
      rw [h]
      decide
    rw [if_pos hl, if_pos h]
  · have hl : ¬ (goTrimSpace s).length < 1 := by
      intro hlt
      exact h ((string_length_eq_zero (goTrimSpace s)).mp (Nat.lt_one_iff.mp hlt))
    rw [if_neg hl, if_neg h]

end ApolloStats
